import Mathlib

/-!
Shallow embedding of the dnf perfmetrics plugin
(`src/plugins/perfmetrics.py`).

The plugin has three behavioural cores that the verification below covers:

* `MetricsFilter.filter` — a `logging.Filter` whose `filter` method matches
  `record.msg` against the regex `^timer: (?P<event>.*): (?P<millisecs>[0-9.]+) ms$`
  with `fullmatch`, stores `int(millisecs)` under key `<event>_time`
  (spaces replaced by underscores) in the shared metrics dict, and returns
  `False`.
* `DnfPerfMetrics.write_results` / `DnfPerfMetrics.cleanup_old_logs` — the
  persistence and retention-sweep phase, run from
  `DnfPerfMetrics.transaction` only when `os.geteuid() == 0`.
* `DnfPerfMetrics.config` — configuration loading with defaults.

Filesystem and OS effects are embedded as explicit data: the environment a
call observes (existence of the directory, success of each syscall, the
listed directory entries with their mtimes and kinds) is a parameter, and
a Python exception escaping a function is an `Except.error` value.
Python `float` times are modelled at integer granularity (the claims only
speak about whole seconds and milliseconds).
-/

/-- Python exceptions raised by the modelled code paths. -/
inductive PyExn where
  | valueError (msg : String)
  | oserror (path : String)
  | fileNotFound (path : String)
  | isADirectory (path : String)
  deriving DecidableEq, Repr

/-- ASCII whitespace stripped by Python `int(str)` before parsing. -/
def isPySpace (c : Char) : Bool :=
  c = ' ' || c = '\t' || c = '\n' || c = '\r' || c = '\x0b' || c = '\x0c'

/-- Numeric value of a list of ASCII digits, most significant first. -/
def digitsVal (l : List Char) : Nat :=
  l.foldl (fun a c => a * 10 + (c.toNat - 48)) 0

/-- Digit run of a Python integer literal after its first digit: digits in
which a single underscore may appear between two digits. Returns the digits
with underscores removed, or `none` if the run is malformed. -/
def pyDigitsTail : List Char → Option (List Char)
  | [] => some []
  | '_' :: c :: cs => if c.isDigit then (pyDigitsTail cs).map (fun l => c :: l) else none
  | ['_'] => none
  | c :: cs => if c.isDigit then (pyDigitsTail cs).map (fun l => c :: l) else none

/-- Nonempty digit run of a Python integer literal (underscores allowed
between digits), returning the digits with underscores removed. -/
def pyDigits : List Char → Option (List Char)
  | [] => none
  | c :: cs => if c.isDigit then (pyDigitsTail cs).map (fun l => c :: l) else none

/-- Python `int(s)` on an ASCII string: optional surrounding whitespace, an
optional sign, then a nonempty digit run (underscores allowed between
digits). Any other content — in particular a decimal point — raises
`ValueError`, modelled as `none`. (Non-ASCII digits and exotic Unicode
whitespace, which CPython also accepts, are outside the modelled domain.) -/
def pyIntStr (s : String) : Option Int :=
  let l := (((s.toList.dropWhile isPySpace).reverse.dropWhile isPySpace)).reverse
  match l with
  | '+' :: rest => (pyDigits rest).map (fun d => Int.ofNat (digitsVal d))
  | '-' :: rest => (pyDigits rest).map (fun d => -Int.ofNat (digitsVal d))
  | rest => (pyDigits rest).map (fun d => Int.ofNat (digitsVal d))

/-- Characters admitted by the regex character class `[0-9.]`. -/
def isNumChar (c : Char) : Bool :=
  c.isDigit || c = '.'

/-- `event.replace(" ", "_")`: every space becomes an underscore. -/
def replaceSpaces : List Char → List Char
  | [] => []
  | c :: cs => (if c = ' ' then '_' else c) :: replaceSpaces cs

/-- `TIME_PATTERN.fullmatch(s)` for
`TIME_PATTERN = re.compile(r"^timer: (?P<event>.*): (?P<millisecs>[0-9.]+) ms$")`,
returning the captured `(event, millisecs)` groups on a match.

The whole string must decompose as
`"timer: " ++ event ++ ": " ++ millisecs ++ " ms"` with `millisecs` a
nonempty `[0-9.]` run and `event` free of a newline (`.` does not match
`\n`). Because `event` is greedy, the separator `": "` sits directly before
the maximal trailing `[0-9.]` run: a shorter `millisecs` group would force
a digit or dot where the regex needs the space of `": "`, so the engine
resolves to exactly this split. The implementation therefore peels the
literal prefix and suffix and takes the maximal numeric run from the
right. -/
def timerMatch (s : String) : Option (String × String) :=
  match s.toList with
  | 't' :: 'i' :: 'm' :: 'e' :: 'r' :: ':' :: ' ' :: rest =>
    match rest.reverse with
    | 's' :: 'm' :: ' ' :: body =>
      let numRev := body.takeWhile isNumChar
      let after := body.dropWhile isNumChar
      if numRev = [] then none
      else
        match after with
        | ' ' :: ':' :: evRev =>
          if evRev.contains '\n' then none
          else some (String.mk evRev.reverse, String.mk numRev.reverse)
        | _ => none
    | _ => none
  | _ => none

/-- The in-memory metrics accumulator `self.metrics_dict`, restricted to its
integer-valued entries (the only ones the claims mention). Modelled as an
insertion-ordered association list with Python dict update semantics. -/
abbrev Dict := List (String × Int)

/-- `d[k] = v` on a Python dict: overwrite in place if the key exists,
append otherwise. -/
def dictSet (d : Dict) (k : String) (v : Int) : Dict :=
  if d.any (fun p => p.1 == k) then
    d.map (fun p => if p.1 == k then (k, v) else p)
  else d ++ [(k, v)]

namespace MetricsFilter

/-- `MetricsFilter.filter(self, record)` applied to the stringified
`record.msg` (`str` of a standard value never raises, so the embedding
takes the already-stringified message). On a regex match it computes the
key, then evaluates `int(m.group("millisecs"))` — which raises
`ValueError` when the matched number contains a decimal point — and on
success stores the value and returns `False`; on no match it returns
`False` untouched. -/
def filter (metrics_dict : Dict) (msg : String) : Except PyExn (Dict × Bool) :=
  match timerMatch msg with
  | none => Except.ok (metrics_dict, false)
  | some (event, millisecs) =>
    let k := String.mk (replaceSpaces event.toList) ++ "_time"
    match pyIntStr millisecs with
    | none =>
      Except.error (PyExn.valueError
        ("invalid literal for int() with base 10: " ++ millisecs))
    | some n => Except.ok (dictSet metrics_dict k n, false)

end MetricsFilter

/-- `DEFAULT_METRICS_DIR` from the source. -/
def DEFAULT_METRICS_DIR : String := "/var/log/dnf/perfmetrics"

/-- `DEFAULT_RETENTION_HOURS` from the source. -/
def DEFAULT_RETENTION_HOURS : Int := 4

/-- Outcome a call to `write_results` observes from the filesystem:
whether `os.path.exists(metrics_dir)` is true, whether `os.makedirs`
would raise `OSError`, and whether opening or writing the result file
would raise `IOError`/`OSError`. -/
structure FsEnv where
  dirExists : Bool
  makedirsFails : Bool
  openWriteFails : Bool
  deriving DecidableEq

/-- What a completed (non-raising) `write_results` call did: whether the
file was written, and the error lines logged via `LOGGER.error`. -/
structure WriteOutcome where
  fileWritten : Bool
  errorLogs : List String
  deriving DecidableEq

/-- Kind of a directory entry seen by the retention sweep. -/
inductive EntryKind where
  | file
  | dir
  deriving DecidableEq

/-- A directory entry of `metrics_dir`: its name, its `st_mtime` (integer
seconds), and whether it is a plain file or a subdirectory. -/
structure Entry where
  name : String
  mtime : Int
  kind : EntryKind
  deriving DecidableEq

namespace DnfPerfMetrics

/-- `DnfPerfMetrics.write_results(self)`. The directory check and
`os.makedirs` call sit before the `try` block, so a `makedirs` failure
escapes; only the open/write of the result file is wrapped in
`try/except (IOError, OSError)`, whose handler logs
`"Error writing performance metrics to file %s" % filename`. `nowStr` is
the string form of the `time.time()` float used in the filename. -/
def write_results (env : FsEnv) (metrics_dir : String) (nowStr : String)
    (pid : Nat) : Except PyExn WriteOutcome :=
  if !env.dirExists && env.makedirsFails then
    Except.error (PyExn.oserror metrics_dir)
  else
    let filename :=
      metrics_dir ++ "/perfmetrics-" ++ nowStr ++ "_" ++ toString pid ++ ".json"
    if env.openWriteFails then
      Except.ok
        { fileWritten := false
          errorLogs := ["Error writing performance metrics to file " ++ filename] }
    else
      Except.ok { fileWritten := true, errorLogs := [] }

/-- One pass of the `for f in os.listdir(metrics_dir)` loop of
`cleanup_old_logs`, over the listed entries in order. `cutoff` is
`now - retention_hours * 3600`. `vanish` holds the names removed by a
sibling process after the listing: for such an entry `os.stat` (or the
subsequent `os.remove`) raises `FileNotFoundError`, which the loop does
not catch, so the sweep aborts with the remaining entries untouched.
An entry with `st_mtime < cutoff` is passed to `os.remove`, which deletes
a plain file but raises `IsADirectoryError` on a subdirectory — again
uncaught, aborting the sweep. Returns the surviving directory entries and
the exception that escaped, if any. -/
def sweepGo (cutoff : Int) (vanish : List String) :
    List Entry → List Entry × Option PyExn
  | [] => ([], none)
  | e :: rest =>
    if e.name ∈ vanish then
      (rest, some (PyExn.fileNotFound e.name))
    else if e.mtime < cutoff then
      match e.kind with
      | EntryKind.dir => (e :: rest, some (PyExn.isADirectory e.name))
      | EntryKind.file => sweepGo cutoff vanish rest
    else
      (e :: (sweepGo cutoff vanish rest).1, (sweepGo cutoff vanish rest).2)

/-- `DnfPerfMetrics.cleanup_old_logs(self)`: stats every entry of
`metrics_dir` and removes those with `st_mtime < now - retention_hours * 3600`. -/
def cleanup_old_logs (now retention_hours : Int) (vanish : List String)
    (entries : List Entry) : List Entry × Option PyExn :=
  sweepGo (now - retention_hours * 3600) vanish entries

/-- What a completed `transaction` hook did. -/
structure TransOutcome where
  metrics : Dict
  fileWritten : Bool
  cleaned : Bool
  logs : List String
  dirAfter : List Entry
  deriving DecidableEq

/-- `DnfPerfMetrics.transaction(self)`: stores
`full_transaction_time = int((time.time() - self.transaction_start_time) * 1000)`
(passed here already truncated, as `elapsedMs`), then returns immediately
when `os.geteuid() != 0`; otherwise runs `write_results` followed by
`cleanup_old_logs`, letting any exception of either escape. -/
def transaction (euid : Nat) (elapsedMs : Int) (time_metrics : Dict)
    (env : FsEnv) (metrics_dir nowStr : String) (pid : Nat)
    (now retention_hours : Int) (vanish : List String)
    (entries : List Entry) : Except PyExn TransOutcome :=
  let tm := dictSet time_metrics "full_transaction_time" elapsedMs
  if euid ≠ 0 then
    Except.ok
      { metrics := tm, fileWritten := false, cleaned := false
        logs := [], dirAfter := entries }
  else
    match write_results env metrics_dir nowStr pid with
    | Except.error e => Except.error e
    | Except.ok w =>
      match cleanup_old_logs now retention_hours vanish entries with
      | (entries2, some e) =>
        let _ := entries2
        Except.error e
      | (entries2, none) =>
        Except.ok
          { metrics := tm, fileWritten := w.fileWritten, cleaned := true
            logs := w.errorLogs, dirAfter := entries2 }

/-- The configuration the plugin reads: whether the file has a `[main]`
section, and the raw string values of `metrics_dir` and `retention_hours`
when those options are present. -/
structure ConfigData where
  has_main : Bool
  metrics_dir_opt : Option String
  retention_hours_opt : Option String
  deriving DecidableEq

/-- `DnfPerfMetrics.config(self)`: starting from the defaults set in
`__init__`, overwrite `metrics_dir` and `retention_hours` from a present
`[main]` section; `int(...)` on the `retention_hours` string raises
`ValueError` when it is not parseable. Returns the resulting
`(metrics_dir, retention_hours)` pair. -/
def config (cp : ConfigData) : Except PyExn (String × Int) :=
  if cp.has_main then
    let md := match cp.metrics_dir_opt with
      | some s => s
      | none => DEFAULT_METRICS_DIR
    match cp.retention_hours_opt with
    | none => Except.ok (md, DEFAULT_RETENTION_HOURS)
    | some s =>
      match pyIntStr s with
      | none =>
        Except.error (PyExn.valueError
          ("invalid literal for int() with base 10: " ++ s))
      | some n => Except.ok (md, n)
  else
    Except.ok (DEFAULT_METRICS_DIR, DEFAULT_RETENTION_HOURS)

end DnfPerfMetrics

/-! ## Claims C1, C2, C8: the timer filter -/

/-- C1: the spec states that a timer message whose number contains a
decimal point, such as `timer: rpm transaction: 12.9 ms`, stores the value
truncated toward zero (`rpm_transaction_time = 12`). The code instead
raises: the regex class `[0-9.]+` deliberately matches decimal numbers,
but `int("12.9")` raises `ValueError`, so the filter stores nothing and
the exception escapes. The second conjunct shows the all-digit path does
behave as specified (`depsolve_time = 532`). -/
theorem c1_decimal_timer_raises_instead_of_truncating :
    MetricsFilter.filter [] "timer: rpm transaction: 12.9 ms"
      = Except.error
          (PyExn.valueError "invalid literal for int() with base 10: 12.9")
    ∧ MetricsFilter.filter [] "timer: depsolve: 532 ms"
      = Except.ok ([("depsolve_time", 532)], false) :=
  ⟨rfl, rfl⟩

/-- C2: the spec states the filter never raises on any message. A
non-matching message is indeed a silent no-op (first conjunct), but a
message that matches the timer grammar with a decimal-pointed number makes
`int(m.group("millisecs"))` raise `ValueError` (second conjunct), so the
filter does raise on some inputs. -/
theorem c2_filter_raises_on_decimal_match :
    MetricsFilter.filter [] "this is not a timer message"
      = Except.ok ([], false)
    ∧ MetricsFilter.filter [] "timer: depsolve: 1.5 ms"
      = Except.error
          (PyExn.valueError "invalid literal for int() with base 10: 1.5") :=
  ⟨rfl, rfl⟩

/-- C8: the spec (and the code comment `Always return False, to filter out
every record from the logs`) states the filter returns `False` for every
message. It does so on a non-match and on an all-digit match (first two
conjuncts), but on a decimal-pointed match it raises `ValueError` and
never returns at all (third conjunct), so the message is not suppressed by
a `False` return on that path. -/
theorem c8_filter_false_except_decimal_raise :
    MetricsFilter.filter [] "unrelated diagnostic text"
      = Except.ok ([], false)
    ∧ MetricsFilter.filter [] "timer: verify: 88 ms"
      = Except.ok ([("verify_time", 88)], false)
    ∧ MetricsFilter.filter [] "timer: connect: 7.5 ms"
      = Except.error
          (PyExn.valueError "invalid literal for int() with base 10: 7.5") :=
  ⟨rfl, rfl, rfl⟩

/-! ## Claim C3: write_results error handling -/

/-- C3 counterexample: the claim says every persistence failure, directory
creation included, is caught inside `write_results`. But the
`os.makedirs` call sits before the `try` block: when the directory is
absent and `makedirs` fails, the `OSError` escapes `write_results`
uncaught. -/
theorem c3_counterexample_makedirs_failure_propagates :
    DnfPerfMetrics.write_results ⟨false, true, false⟩
        "/var/log/dnf/perfmetrics" "17.5" 42
      = Except.error (PyExn.oserror "/var/log/dnf/perfmetrics") :=
  rfl

/-- C3 amended: a failure to open or write the result file is caught,
logged with the failed path, and does not propagate (first conjunct); a
directory-creation failure, however, happens outside the `try` block and
propagates out of `write_results` uncaught (second conjunct). -/
theorem c3_open_write_caught_makedirs_not (env : FsEnv)
    (dir nowStr : String) (pid : Nat) :
    (env.openWriteFails = true →
      env.dirExists = true ∨ env.makedirsFails = false →
      DnfPerfMetrics.write_results env dir nowStr pid
        = Except.ok
            { fileWritten := false
              errorLogs := ["Error writing performance metrics to file " ++
                (dir ++ "/perfmetrics-" ++ nowStr ++ "_" ++ toString pid ++
                  ".json")] })
    ∧ (env.dirExists = false → env.makedirsFails = true →
      DnfPerfMetrics.write_results env dir nowStr pid
        = Except.error (PyExn.oserror dir)) := by
  obtain ⟨de, mf, wf⟩ := env
  refine ⟨fun hw hd => ?_, fun hd hm => ?_⟩
  · subst hw
    rcases hd with h | h <;> subst h <;>
      simp [DnfPerfMetrics.write_results]
  · subst hd; subst hm
    simp [DnfPerfMetrics.write_results]

/-- Witness for C3: both branches of the amended claim at concrete
inputs. -/
theorem c3_open_write_caught_makedirs_not_witness :
    DnfPerfMetrics.write_results ⟨true, false, true⟩
        "/var/log/dnf/perfmetrics" "17.5" 42
      = Except.ok
          { fileWritten := false
            errorLogs := ["Error writing performance metrics to file /var/log/dnf/perfmetrics/perfmetrics-17.5_42.json"] }
    ∧ DnfPerfMetrics.write_results ⟨false, true, true⟩
        "/var/log/dnf/perfmetrics" "17.5" 42
      = Except.error (PyExn.oserror "/var/log/dnf/perfmetrics") :=
  ⟨(c3_open_write_caught_makedirs_not ⟨true, false, true⟩
      "/var/log/dnf/perfmetrics" "17.5" 42).1 rfl (Or.inl rfl),
   (c3_open_write_caught_makedirs_not ⟨false, true, true⟩
      "/var/log/dnf/perfmetrics" "17.5" 42).2 rfl rfl⟩

/-! ## Claim C4: the sweep and concurrently deleted files -/

/-- C4 counterexample: the claim says a file that vanished between the
listing and the stat/remove is a tolerated no-op. The loop body has no
exception handling, so `os.stat` on the vanished file raises
`FileNotFoundError` and the sweep aborts. -/
theorem c4_counterexample_race_is_fatal :
    DnfPerfMetrics.cleanup_old_logs 100000 4 ["perfmetrics-90000.0_7.json"]
      [⟨"perfmetrics-90000.0_7.json", 12345, EntryKind.file⟩]
      = ([], some (PyExn.fileNotFound "perfmetrics-90000.0_7.json")) :=
  rfl

/-- C4 amended: when an entry targeted by the sweep no longer exists at
stat/remove time, the resulting `FileNotFoundError` is not caught: it
propagates out of `cleanup_old_logs` and aborts the sweep, leaving the
remaining entries unprocessed. -/
theorem c4_vanished_file_aborts_sweep (now retention_hours : Int)
    (vanish : List String) (e : Entry) (rest : List Entry)
    (h : e.name ∈ vanish) :
    DnfPerfMetrics.cleanup_old_logs now retention_hours vanish (e :: rest)
      = (rest, some (PyExn.fileNotFound e.name)) := by
  simp [DnfPerfMetrics.cleanup_old_logs, DnfPerfMetrics.sweepGo, h]

/-- Witness for C4: a concrete vanished file aborts the sweep before the
remaining stale entry is examined. -/
theorem c4_vanished_file_aborts_sweep_witness :
    DnfPerfMetrics.cleanup_old_logs 500000 4 ["gone.json"]
      [⟨"gone.json", 0, EntryKind.file⟩, ⟨"stale.json", 0, EntryKind.file⟩]
      = ([⟨"stale.json", 0, EntryKind.file⟩],
         some (PyExn.fileNotFound "gone.json")) :=
  c4_vanished_file_aborts_sweep 500000 4 ["gone.json"]
    ⟨"gone.json", 0, EntryKind.file⟩ [⟨"stale.json", 0, EntryKind.file⟩]
    (by simp)

/-! ## Claims C5, C9, C10: the retention sweep -/

/-- On a directory of plain files with no concurrent deletions, the sweep
completes without error and keeps exactly the entries with
`cutoff ≤ mtime`, deleting the rest. -/
theorem sweepGo_all_files (cutoff : Int) (l : List Entry)
    (hf : ∀ e ∈ l, e.kind = EntryKind.file) :
    DnfPerfMetrics.sweepGo cutoff [] l
      = (l.filter (fun e => decide (cutoff ≤ e.mtime)), none) := by
  induction l with
  | nil => rfl
  | cons e rest ih =>
    have he : e.kind = EntryKind.file := hf e (List.mem_cons_self e rest)
    have hrest : ∀ x ∈ rest, x.kind = EntryKind.file :=
      fun x hx => hf x (List.mem_cons_of_mem e hx)
    by_cases hm : e.mtime < cutoff
    · simp [DnfPerfMetrics.sweepGo, hm, he, ih hrest, List.filter_cons,
        show ¬cutoff ≤ e.mtime from by omega]
    · simp [DnfPerfMetrics.sweepGo, hm, ih hrest, List.filter_cons,
        show cutoff ≤ e.mtime from by omega]

/-- C5: on a directory of plain files the sweep raises nothing, keeps
exactly the entries with `now - retention_hours * 3600 ≤ mtime`, and an
entry is deleted if and only if its age strictly exceeds
`retention_hours * 3600` seconds — so a file exactly at the threshold is
retained and one a second older is deleted. -/
theorem c5_retention_strict_boundary (now retention_hours : Int)
    (entries : List Entry) (hf : ∀ e ∈ entries, e.kind = EntryKind.file) :
    DnfPerfMetrics.cleanup_old_logs now retention_hours [] entries
      = (entries.filter
          (fun e => decide (now - retention_hours * 3600 ≤ e.mtime)), none)
    ∧ ∀ e ∈ entries,
        (e ∉ (DnfPerfMetrics.cleanup_old_logs now retention_hours [] entries).1
          ↔ now - e.mtime > retention_hours * 3600) := by
  have h : DnfPerfMetrics.cleanup_old_logs now retention_hours [] entries
      = (entries.filter
          (fun e => decide (now - retention_hours * 3600 ≤ e.mtime)), none) :=
    sweepGo_all_files (now - retention_hours * 3600) entries hf
  refine ⟨h, fun e he => ?_⟩
  rw [h]
  simp only [List.mem_filter, decide_eq_true_eq, he, true_and]
  omega

/-- Witness for C5: with `now = 10000` and `retention_hours = 1`, a file
whose mtime is exactly 3600 seconds old is retained and one 3601 seconds
old is deleted, with no error. -/
theorem c5_retention_strict_boundary_witness :
    DnfPerfMetrics.cleanup_old_logs 10000 1 []
      [⟨"exactly-at-threshold.json", 6400, EntryKind.file⟩,
       ⟨"one-second-older.json", 6399, EntryKind.file⟩]
      = ([⟨"exactly-at-threshold.json", 6400, EntryKind.file⟩], none) := by
  have h := (c5_retention_strict_boundary 10000 1
    [⟨"exactly-at-threshold.json", 6400, EntryKind.file⟩,
     ⟨"one-second-older.json", 6399, EntryKind.file⟩] (by decide)).1
  rw [h]
  rfl

/-- Running the sweep again on the directory state a first sweep left
behind, with the same cutoff, reproduces that state exactly: survivors of
the first pass are all young enough to survive again, and an aborting
entry aborts the second pass at the same point. -/
theorem sweepGo_second_pass_fixed (cutoff : Int) (l : List Entry) :
    DnfPerfMetrics.sweepGo cutoff [] ((DnfPerfMetrics.sweepGo cutoff [] l).1)
      = DnfPerfMetrics.sweepGo cutoff [] l := by
  induction l with
  | nil => rfl
  | cons e rest ih =>
    by_cases hm : e.mtime < cutoff
    · cases hk : e.kind
      · simp [DnfPerfMetrics.sweepGo, hm, hk, ih]
      · simp [DnfPerfMetrics.sweepGo, hm, hk]
    · simp [DnfPerfMetrics.sweepGo, hm, ih]

/-- C9: the retention sweep is idempotent — for any directory state,
rerunning it on the result of a first run with the same reference time
deletes nothing further (it returns the same surviving entries, and the
same outcome). -/
theorem c9_sweep_idempotent (now retention_hours : Int)
    (entries : List Entry) :
    DnfPerfMetrics.cleanup_old_logs now retention_hours []
        ((DnfPerfMetrics.cleanup_old_logs now retention_hours [] entries).1)
      = DnfPerfMetrics.cleanup_old_logs now retention_hours [] entries :=
  sweepGo_second_pass_fixed (now - retention_hours * 3600) entries

/-- C10: the sweep applies no name filtering and no file-type check. A
stale plain file is removed whatever its name (first conjunct); a stale
subdirectory reaches `os.remove`, which raises `IsADirectoryError`
uncaught, aborting the sweep and leaving the remaining entries
unprocessed (second conjunct). -/
theorem c10_no_name_filter_and_dir_abort :
    (∀ (now retention_hours : Int) (name : String) (mt : Int),
      mt < now - retention_hours * 3600 →
      DnfPerfMetrics.cleanup_old_logs now retention_hours []
          [⟨name, mt, EntryKind.file⟩]
        = ([], none))
    ∧ (∀ (now retention_hours : Int) (name : String) (mt : Int)
        (rest : List Entry),
      mt < now - retention_hours * 3600 →
      DnfPerfMetrics.cleanup_old_logs now retention_hours []
          (⟨name, mt, EntryKind.dir⟩ :: rest)
        = (⟨name, mt, EntryKind.dir⟩ :: rest,
           some (PyExn.isADirectory name))) := by
  constructor
  · intro now rh name mt h
    simp [DnfPerfMetrics.cleanup_old_logs, DnfPerfMetrics.sweepGo, h]
  · intro now rh name mt rest h
    simp [DnfPerfMetrics.cleanup_old_logs, DnfPerfMetrics.sweepGo, h]

/-- Witness for C10: a stale file that is not a perfmetrics record is
removed, and a stale subdirectory aborts the sweep before a stale file
listed after it is reached. -/
theorem c10_no_name_filter_and_dir_abort_witness :
    DnfPerfMetrics.cleanup_old_logs 10000 1 []
      [⟨"random-notes.txt", 0, EntryKind.file⟩]
      = ([], none)
    ∧ DnfPerfMetrics.cleanup_old_logs 10000 1 []
      [⟨"subdir", 0, EntryKind.dir⟩, ⟨"stale.json", 0, EntryKind.file⟩]
      = ([⟨"subdir", 0, EntryKind.dir⟩, ⟨"stale.json", 0, EntryKind.file⟩],
         some (PyExn.isADirectory "subdir")) :=
  ⟨c10_no_name_filter_and_dir_abort.1 10000 1 "random-notes.txt" 0 (by decide),
   c10_no_name_filter_and_dir_abort.2 10000 1 "subdir" 0
     [⟨"stale.json", 0, EntryKind.file⟩] (by decide)⟩

/-! ## Claim C6: the privilege gate -/

/-- C6: when the effective user id is not 0, the `transaction` hook still
records `full_transaction_time` but then returns before `write_results`
and `cleanup_old_logs` run: no file is written, the directory is left
untouched, nothing is logged, no exception is raised. -/
theorem c6_nonroot_skips_silently (euid : Nat) (elapsedMs : Int) (d : Dict)
    (env : FsEnv) (metrics_dir nowStr : String) (pid : Nat)
    (now retention_hours : Int) (vanish : List String)
    (entries : List Entry) (h : euid ≠ 0) :
    DnfPerfMetrics.transaction euid elapsedMs d env metrics_dir nowStr pid
        now retention_hours vanish entries
      = Except.ok
          { metrics := dictSet d "full_transaction_time" elapsedMs
            fileWritten := false, cleaned := false, logs := []
            dirAfter := entries } := by
  simp [DnfPerfMetrics.transaction, h]

/-- Witness for C6: a non-root invocation with a stale file present leaves
the directory alone and succeeds. -/
theorem c6_nonroot_skips_silently_witness :
    DnfPerfMetrics.transaction 1000 532 [] ⟨true, false, false⟩
        "/var/log/dnf/perfmetrics" "99.9" 7 100000 4 []
        [⟨"stale-old.json", 0, EntryKind.file⟩]
      = Except.ok
          { metrics := [("full_transaction_time", 532)]
            fileWritten := false, cleaned := false, logs := []
            dirAfter := [⟨"stale-old.json", 0, EntryKind.file⟩] } :=
  c6_nonroot_skips_silently 1000 532 [] ⟨true, false, false⟩
    "/var/log/dnf/perfmetrics" "99.9" 7 100000 4 []
    [⟨"stale-old.json", 0, EntryKind.file⟩] (by decide)

/-! ## Claim C7: configuration loading -/

/-- C7: an absent `[main]` section, or absent options, leave the defaults
`/var/log/dnf/perfmetrics` and `4` in place silently (first two
conjuncts); a present `retention_hours` value that Python `int` cannot
parse makes `config` raise `ValueError`, with no silent fallback (third
conjunct). -/
theorem c7_config_defaults_and_fatal_int (cp : DnfPerfMetrics.ConfigData) :
    (cp.has_main = false →
      DnfPerfMetrics.config cp
        = Except.ok (DEFAULT_METRICS_DIR, DEFAULT_RETENTION_HOURS))
    ∧ (cp.has_main = true → cp.metrics_dir_opt = none →
        cp.retention_hours_opt = none →
      DnfPerfMetrics.config cp
        = Except.ok (DEFAULT_METRICS_DIR, DEFAULT_RETENTION_HOURS))
    ∧ (∀ s, cp.has_main = true → cp.retention_hours_opt = some s →
        pyIntStr s = none →
      DnfPerfMetrics.config cp
        = Except.error (PyExn.valueError
            ("invalid literal for int() with base 10: " ++ s))) := by
  obtain ⟨hm, md, rh⟩ := cp
  refine ⟨fun h => ?_, fun h1 h2 h3 => ?_, fun s h1 h2 h3 => ?_⟩ <;>
    subst_vars <;> simp [DnfPerfMetrics.config, *]

/-- Witness for C7: defaults survive an absent section and absent keys;
`retention_hours = "abc"` raises. -/
theorem c7_config_defaults_and_fatal_int_witness :
    DnfPerfMetrics.config ⟨false, none, none⟩
      = Except.ok ("/var/log/dnf/perfmetrics", 4)
    ∧ DnfPerfMetrics.config ⟨true, none, none⟩
      = Except.ok ("/var/log/dnf/perfmetrics", 4)
    ∧ DnfPerfMetrics.config ⟨true, none, some "abc"⟩
      = Except.error
          (PyExn.valueError "invalid literal for int() with base 10: abc") :=
  ⟨(c7_config_defaults_and_fatal_int ⟨false, none, none⟩).1 rfl,
   (c7_config_defaults_and_fatal_int ⟨true, none, none⟩).2.1 rfl rfl rfl,
   (c7_config_defaults_and_fatal_int ⟨true, none, some "abc"⟩).2.2
     "abc" rfl rfl rfl⟩

/-- Sanity lemma for the regex embedding: the greedy `event` group absorbs
inner `": "` separators, and the match peels the literal prefix and
suffix. -/
theorem timerMatch_greedy_event :
    timerMatch "timer: depsolve: 532 ms" = some ("depsolve", "532")
    ∧ timerMatch "timer: a: 1: 2 ms" = some ("a: 1", "2")
    ∧ timerMatch "not a timer" = none
    ∧ timerMatch "timer: x: ms" = none :=
  ⟨rfl, rfl, rfl, rfl⟩

/-- Sanity lemma for the `int()` embedding: signs, surrounding whitespace
and inner underscores are accepted; decimal points and letters raise. -/
theorem pyIntStr_cases :
    pyIntStr "  +1_23 " = some 123
    ∧ pyIntStr "-40" = some (-40)
    ∧ pyIntStr "abc" = none
    ∧ pyIntStr "12." = none
    ∧ pyIntStr "12.9" = none :=
  ⟨rfl, rfl, rfl, rfl, rfl⟩
